import Mathlib

/-!
Shallow embedding of the resilient messaging client layer of nimbus.io:
`src/diyapi_tools/greenlet_xreq_client.py` (class GreenletXREQClient, the
multiplexed client) and `src/diyapi_tools/greenlet_resilient_client.py`
(class GreelletResilientClient, the resilient client).

Modelling conventions:
- Python dicts with string keys are association lists with unique keys,
  updated in place (`alistSet`) and popped (`alistRemove`), matching
  Python dict semantics; lookup returns the first (unique) binding.
- `uuid.uuid1().hex` is modelled by `uuidHex`: an abstract 128-bit seed
  rendered as exactly 32 lowercase hexadecimal characters, which is what
  the `.hex` property of a uuid produces.
- Socket I/O is modelled by a wire trace: a sent message is the pair of
  its control map and the list of trailing body frames; the ZMQ SNDMORE
  flag is implicit in list position (every frame but the last carries it).
  `recv_json` results are inputs to the callback functions; `None` stands
  for a receive that would have blocked (zmq.EAGAIN).
- `time.time()` values are rationals supplied by the caller; all reads of
  the clock within one call of a function see the same instant.
- Python exceptions are modelled with `Except PyErr`; because attribute
  mutation in Python persists when an exception is raised later in the
  call, every operation returns the state as mutated up to the raise
  point together with the `Except` outcome.
- In `greenlet_resilient_client.py` every critical section begins with
  `self._send_queue.lock.acquire()` where `self._send_queue` is a plain
  `collections.deque`; a deque has no attribute `lock` (the RLock the
  constructor stores in `self._send_queue_lock` is never used), so that
  line raises `AttributeError` and the remainder of the critical section
  is unreachable.  The embedding reproduces this: the reachable prefix of
  each function is translated line by line, and the raise point returns
  `PyErr.attributeError "collections.deque" "lock"`.
-/

deriving instance DecidableEq for Except

/-! ### Python dict as an association list -/

def alistGet {β : Type} (d : List (String × β)) (k : String) : Option β :=
  match d with
  | [] => none
  | (k2, v) :: rest => if k2 = k then some v else alistGet rest k

def alistSet {β : Type} (d : List (String × β)) (k : String) (v : β) :
    List (String × β) :=
  match d with
  | [] => [(k, v)]
  | (k2, v2) :: rest => if k2 = k then (k2, v) :: rest else (k2, v2) :: alistSet rest k v

def alistRemove {β : Type} (d : List (String × β)) (k : String) :
    List (String × β) :=
  match d with
  | [] => []
  | (k2, v2) :: rest => if k2 = k then rest else (k2, v2) :: alistRemove rest k

def alistContains {β : Type} (d : List (String × β)) (k : String) : Bool :=
  (alistGet d k).isSome

theorem alistGet_set_self {β : Type} (d : List (String × β)) (k : String) (v : β) :
    alistGet (alistSet d k v) k = some v := by
  induction d with
  | nil => simp [alistSet, alistGet]
  | cons hd tl ih =>
    obtain ⟨k2, v2⟩ := hd
    by_cases h : k2 = k
    · simp [alistSet, alistGet, h]
    · simp [alistSet, alistGet, h, ih]

theorem alistSet_of_not_contains {β : Type} (d : List (String × β)) (k : String)
    (v : β) (h : alistGet d k = none) : alistSet d k v = d ++ [(k, v)] := by
  induction d with
  | nil => simp [alistSet]
  | cons hd tl ih =>
    obtain ⟨k2, v2⟩ := hd
    by_cases hk : k2 = k
    · simp [alistGet, hk] at h
    · simp [alistGet, hk] at h
      simp [alistSet, hk, ih h]

theorem alistGet_eq_none_of_not_mem {β : Type} (d : List (String × β)) (k : String)
    (h : k ∉ d.map Prod.fst) : alistGet d k = none := by
  induction d with
  | nil => rfl
  | cons hd tl ih =>
    obtain ⟨k2, v2⟩ := hd
    simp only [List.map_cons, List.mem_cons] at h
    push_neg at h
    have hk : k2 ≠ k := fun e => h.1 e.symm
    simp [alistGet, hk, ih h.2]

theorem alistGet_remove_self {β : Type} (d : List (String × β)) (k : String)
    (h : (d.map Prod.fst).Nodup) : alistGet (alistRemove d k) k = none := by
  induction d with
  | nil => rfl
  | cons hd tl ih =>
    obtain ⟨k2, v2⟩ := hd
    simp only [List.map_cons, List.nodup_cons] at h
    by_cases hk : k2 = k
    · subst hk
      simp only [alistRemove, if_pos rfl]
      exact alistGet_eq_none_of_not_mem tl k2 h.1
    · simp [alistRemove, hk, alistGet, ih h.2]

/-! ### List update helpers (gevent Queue put on the channel at an index) -/

theorem getD_set_self {α : Type} (l : List α) (i : Nat) (x d : α)
    (h : i < l.length) : (l.set i x).getD i d = x := by
  induction l generalizing i with
  | nil => simp at h
  | cons hd tl ih =>
    cases i with
    | zero => simp [List.set, List.getD]
    | succ n =>
      simp only [List.length_cons, Nat.succ_lt_succ_iff] at h
      simpa [List.set, List.getD] using ih n h

theorem getD_set_ne {α : Type} (l : List α) (i j : Nat) (x d : α)
    (h : j ≠ i) : (l.set i x).getD j d = l.getD j d := by
  induction l generalizing i j with
  | nil => simp [List.set]
  | cons hd tl ih =>
    cases i with
    | zero =>
      cases j with
      | zero => exact absurd rfl h
      | succ m => simp [List.set, List.getD]
    | succ n =>
      cases j with
      | zero => simp [List.set, List.getD]
      | succ m =>
        have hm : m ≠ n := fun e => h (by rw [e])
        simpa [List.set, List.getD] using ih n m hm

/-! ### uuid.uuid1().hex -/

def hexDigit : Nat → Char
  | 0 => '0' | 1 => '1' | 2 => '2' | 3 => '3'
  | 4 => '4' | 5 => '5' | 6 => '6' | 7 => '7'
  | 8 => '8' | 9 => '9' | 10 => 'a' | 11 => 'b'
  | 12 => 'c' | 13 => 'd' | 14 => 'e' | _ => 'f'

def hexDigitsFixed : Nat → Nat → List Char
  | 0, _ => []
  | k + 1, n => hexDigitsFixed k (n / 16) ++ [hexDigit (n % 16)]

/-- Model of `uuid.uuid1().hex`: the 128-bit uuid value (abstracted as the
seed, its low 128 bits) rendered as exactly 32 lowercase hex characters. -/
def uuidHex (seed : Nat) : String := String.mk (hexDigitsFixed 32 seed)

def isHexDigitChar (ch : Char) : Bool := "0123456789abcdef".toList.contains ch

theorem hexDigitsFixed_length (k n : Nat) : (hexDigitsFixed k n).length = k := by
  induction k generalizing n with
  | zero => rfl
  | succ m ih => simp [hexDigitsFixed, ih]

theorem uuidHex_length (seed : Nat) : (uuidHex seed).length = 32 := by
  show (hexDigitsFixed 32 seed).length = 32
  exact hexDigitsFixed_length 32 seed

theorem isHexDigitChar_hexDigit : ∀ m, m < 16 → isHexDigitChar (hexDigit m) = true := by
  decide

theorem uuidHex_all_hex (seed : Nat) :
    (uuidHex seed).toList.all isHexDigitChar = true := by
  show (hexDigitsFixed 32 seed).all isHexDigitChar = true
  generalize 32 = k
  induction k generalizing seed with
  | zero => rfl
  | succ m ih =>
    have h1 := ih (seed / 16)
    have h2 := isHexDigitChar_hexDigit (seed % 16) (Nat.mod_lt seed (by decide))
    simp [hexDigitsFixed, List.all_append, h1, h2]

/-! ### Shared message data model -/

/-- The control map of an envelope: string keys to string values. -/
abbrev Control := List (String × String)

/-- A Python message body as passed by callers: either a single scalar
segment or a list/tuple of segments (segments are opaque byte strings). -/
inductive PyBody where
  | scalar (s : String)
  | seq (l : List String)
deriving DecidableEq

/-- The namedtuple `Message(control, body)` shared by both clients. -/
structure Message where
  control : Control
  body : Option PyBody
deriving DecidableEq

/-- The body as produced by `GreenletXREQClient._receive_message`:
zero trailing frames give `None`, one gives the bare segment,
more give the ordered list. -/
inductive RecvBody where
  | none
  | single (s : String)
  | multi (l : List String)
deriving DecidableEq

/-- Python exception kinds raised (or modelled) by this layer. -/
inductive PyErr where
  | attributeError (ty attr : String)
  | keyError (k : String)
  | indexError
  | duplicateRequestId (rid : String)
deriving DecidableEq

/-! ### Message codec (GreenletXREQClient._send_message / _receive_message) -/

/-- Lines 93-99 of greenlet_xreq_client.py (and 159-165 of
greenlet_resilient_client.py): the trailing body frames emitted after the
control frame.  `None` body sends the control frame alone; a scalar body is
wrapped into a one-element list; `body[-1]` on an empty list raises
IndexError. -/
def encodeBodyFrames : Option PyBody → Except PyErr (List String)
  | Option.none => Except.ok []
  | Option.some (PyBody.scalar s) => Except.ok [s]
  | Option.some (PyBody.seq []) => Except.error PyErr.indexError
  | Option.some (PyBody.seq (x :: rest)) => Except.ok (x :: rest)

/-- `GreenletXREQClient._send_message` as a pure codec: the wire form is the
control map (first frame) plus the trailing raw frames; SNDMORE is implicit
in list position. The XREQ client does not stamp `client-tag`. -/
def xEncodeMessage (m : Message) : Except PyErr (Control × List String) :=
  match encodeBodyFrames m.body with
  | Except.error e => Except.error e
  | Except.ok frames => Except.ok (m.control, frames)

/-- Lines 112-121 of greenlet_xreq_client.py: collect the trailing frames;
zero of them means `body = None`, exactly one is unwrapped to the bare
segment, more than one stays an ordered list. -/
def decodeBody : List String → RecvBody
  | [] => RecvBody.none
  | [s] => RecvBody.single s
  | a :: b :: rest => RecvBody.multi (a :: b :: rest)

/-- `GreenletXREQClient._receive_message` on a full set of wire frames:
parse the first frame as the control map, then fold the trailing frames
with `decodeBody`. -/
def xDecodeFrames (w : Control × List String) : Control × RecvBody :=
  (w.1, decodeBody w.2)

/-! ### GreenletXREQClient state and operations -/

/-- State of a GreenletXREQClient: the unbounded outbound queue, the
`request-id` to delivery-queue registry (`self._delivery_queues`), the
delivery queues themselves (indexed by creation order; `put` appends), the
log, and the trace of transmitted wire messages. -/
structure XState where
  sendQueue : List Message
  deliveryQueues : List (String × Nat)
  channels : List (List (Control × RecvBody))
  log : List String
  sent : List (Control × List String)
deriving DecidableEq

/-- A freshly constructed GreenletXREQClient (lines 23-31). -/
def xInit : XState :=
  { sendQueue := [], deliveryQueues := [], channels := [],
    log := ["connecting"], sent := [] }

/-- `GreenletXREQClient.queue_message_for_send` (lines 44-59): supply a
`request-id` when the caller's control map lacks one (mutating the caller's
map in place), store a fresh zero-size delivery queue under that id (a
plain dict assignment, overwriting any existing entry), append the envelope
to the outbound queue, and return the delivery queue just stored.  Returns
(new state, the caller's control map after mutation, channel index). -/
def xQueueMessageForSend (s : XState) (ctrl : Control) (data : Option PyBody)
    (seed : Nat) : XState × Control × Nat :=
  let c := if alistContains ctrl "request-id" then ctrl
           else alistSet ctrl "request-id" (uuidHex seed)
  let rid := (alistGet c "request-id").getD ""
  let ch := s.channels.length
  ({ s with
      deliveryQueues := alistSet s.deliveryQueues rid ch,
      channels := s.channels ++ [[]],
      sendQueue := s.sendQueue ++ [{ control := c, body := data }] },
   c, ch)

/-- One message of the drain loop: `get_nowait` has already removed the
message from the queue; `_send_message` encodes and transmits it, or raises
(the message is then lost and the exception propagates). -/
def xSendMessage (s : XState) (m : Message) : XState × Except PyErr Unit :=
  match xEncodeMessage m with
  | Except.error e => ({ s with log := s.log ++ ["sending message"] }, Except.error e)
  | Except.ok w =>
    ({ s with log := s.log ++ ["sending message"], sent := s.sent ++ [w] },
     Except.ok ())

/-- Lines 63-66: `while not self._send_queue.empty(): get_nowait; send`.
On an exception the already-dequeued message is lost and the rest of the
queue is preserved. -/
def xDrainGo : XState → List Message → XState × Except PyErr Unit
  | s, [] => (s, Except.ok ())
  | s, m :: rest =>
    match xSendMessage { s with sendQueue := rest } m with
    | (s2, Except.ok _) => xDrainGo s2 rest
    | (s2, Except.error e) => (s2, Except.error e)

/-- Lines 69-89: the readable half of the callback.  `recv` is the result
of `_receive_message` (`none` when the socket would have blocked).  A
control map without `request-id` is logged and dropped; an id with no
registered delivery queue is a logged correlation miss (`KeyError` from
`dict.pop` is caught); otherwise the entry is popped and `(control, body)`
is put into its delivery queue. -/
def xHandleReceived (s : XState) (readable : Bool)
    (recv : Option (Control × RecvBody)) : XState × Except PyErr Unit :=
  if readable then
    match recv with
    | Option.none =>
      ({ s with log := s.log ++ ["socket would have blocked"] }, Except.ok ())
    | Option.some (c, b) =>
      match alistGet c "request-id" with
      | Option.none =>
        ({ s with log := s.log ++ ["message has no request-id"] }, Except.ok ())
      | Option.some rid =>
        match alistGet s.deliveryQueues rid with
        | Option.none =>
          ({ s with log := s.log ++ ["No delivery queue"] }, Except.ok ())
        | Option.some ch =>
          ({ s with
              deliveryQueues := alistRemove s.deliveryQueues rid,
              channels := s.channels.set ch
                (s.channels.getD ch [] ++ [(c, b)]) },
           Except.ok ())
  else (s, Except.ok ())

/-- `GreenletXREQClient._pollster_callback` (lines 61-89): drain the
outbound queue when writable, then handle at most one received message
when readable. -/
def xPollsterCallback (s : XState) (writable readable : Bool)
    (recv : Option (Control × RecvBody)) : XState × Except PyErr Unit :=
  if writable then
    match xDrainGo { s with sendQueue := [] } s.sendQueue with
    | (s1, Except.ok _) => xHandleReceived s1 readable recv
    | (s1, Except.error e) => (s1, Except.error e)
  else xHandleReceived s readable recv

/-! ### GreelletResilientClient state -/

/-- Connection status constants of greenlet_resilient_client.py, lines
22-24 (the unknown-status defensive branch of `run` is unrepresentable in
this enumeration, so line 221 is not modelled). -/
inductive RStatus where
  | handshaking
  | connected
  | disconnected
deriving DecidableEq

/-- `self._pending_message` of the resilient client holds whatever Python
object was last assigned: the `Message` namedtuple on the
queue-for-send path (line 89), but the bare control dict on the handshake
path (line 108 assigns `message`, the dict built on lines 100-105, not the
namedtuple wrapped around it on line 107) and the received ack dict on the
callback path (line 151). -/
inductive PendVal where
  | msg (m : Message)
  | ctl (c : Control)
deriving DecidableEq

/-- State of the Delivery Correlator used by the resilient client.

Modelled from the spec: the implementation (`diyapi_tools.deliverator`,
whose `add_request` is called on line 81 of greenlet_resilient_client.py)
is not under src/; spec section 4.2 says `register(request_id)` creates a
fresh one-shot delivery channel stored under the id and fails with
`DuplicateRequestId` when the id is already registered. -/
structure DState where
  entries : List (String × Nat)
  nextChannel : Nat
deriving DecidableEq

/-- Modelled from the spec: `Deliverator.add_request` (spec section 4.2
`register`): a fresh channel keyed by the request id, or a
`DuplicateRequestId` failure, never a silent overwrite. -/
def delivAddRequest (d : DState) (rid : String) : DState × Except PyErr Nat :=
  match alistGet d.entries rid with
  | Option.some _ => (d, Except.error (PyErr.duplicateRequestId rid))
  | Option.none =>
    ({ entries := d.entries ++ [(rid, d.nextChannel)],
       nextChannel := d.nextChannel + 1 },
     Except.ok d.nextChannel)

/-- State of a GreelletResilientClient. `sendQueue` is the
`collections.deque`, `pending`/`pendingStart` the Pending Slot and its
send time, `sent` the wire trace of transmitted envelopes (control map
after any stamping, plus trailing body frames). -/
structure RState where
  clientTag : String
  clientAddress : String
  sendQueue : List Message
  pending : Option PendVal
  pendingStart : Option ℚ
  status : RStatus
  statusTime : ℚ
  deliv : DState
  sent : List (Control × List String)
  log : List String
deriving DecidableEq

/-- The source constants `_ack_timeout = 10.0` (line 19),
`_handshake_retry_interval = 60.0` (line 20) and
`polling_interval = 3.0` (line 30). -/
def ackTimeout : ℚ := 10

def handshakeRetryInterval : ℚ := 60

def pollingInterval : ℚ := 3

/-! ### GreelletResilientClient operations -/

/-- The handshake control map built on lines 100-105. -/
def handshakeControl (tag addr : String) (seed : Nat) : Control :=
  [("message-type", "resilient-server-handshake"),
   ("request-id", uuidHex seed),
   ("client-tag", tag),
   ("client-address", addr)]

/-- `GreelletResilientClient._send_message` (lines 156-167): stamp
`client-tag` into the control map in place, then emit the control frame
and the body frames.  Unreachable from every entry point of the class
(each caller raises at its `self._send_queue.lock` line first); translated
for completeness. -/
def rSendMessage (s : RState) (m : Message) : RState × Except PyErr Unit :=
  let c := alistSet m.control "client-tag" s.clientTag
  match encodeBodyFrames m.body with
  | Except.error e =>
    ({ s with log := s.log ++ ["sending message"] }, Except.error e)
  | Except.ok frames =>
    ({ s with log := s.log ++ ["sending message"],
              sent := s.sent ++ [(c, frames)] },
     Except.ok ())

/-- `GreelletResilientClient._send_handshake` (lines 98-112): log, build
the handshake control map, then `self._send_queue.lock.acquire()` on line
106 raises `AttributeError` (`collections.deque` has no attribute `lock`;
the RLock stored in `self._send_queue_lock` on line 53 is never used).
Lines 107-112 (transmit, Pending Slot := the bare control dict,
status := handshaking) are never reached, so the state is returned with
only the log entry from line 99 applied. -/
def rSendHandshake (s : RState) (_seed : Nat) (_now : ℚ) :
    RState × Except PyErr Unit :=
  ({ s with log := s.log ++ ["sending handshake"] },
   Except.error (PyErr.attributeError "collections.deque" "lock"))

/-- The `GreelletResilientClient` constructor (lines 32-62): empty deque,
empty Pending Slot, status `disconnected`, then the synchronous
`_send_handshake()` call on line 62, which raises (see `rSendHandshake`);
the partially initialised state at the raise point is returned. -/
def rInit (tag addr : String) (now : ℚ) (seed : Nat) :
    RState × Except PyErr Unit :=
  let s : RState :=
    { clientTag := tag, clientAddress := addr, sendQueue := [],
      pending := none, pendingStart := none,
      status := RStatus.disconnected, statusTime := now,
      deliv := { entries := [], nextChannel := 0 },
      sent := [], log := ["connecting"] }
  rSendHandshake s seed now

/-- `GreelletResilientClient.queue_message_for_send` (lines 75-96): insert
a fresh `request-id` into the caller's control map in place when absent
(lines 77-78), register the id with the Delivery Correlator (line 81,
its effect and any `DuplicateRequestId` failure persist), build the
`Message` namedtuple (line 83), then `self._send_queue.lock.acquire()` on
line 85 raises `AttributeError` (deque has no attribute `lock`).  Lines
87-96 are never reached; note that even past that raise, the enqueue path
on line 92 calls `self._send_queue.put(message)` and a deque has no `put`
method either.  Returns (state, the caller's control map after mutation,
outcome). -/
def rQueueMessageForSend (s : RState) (ctrl : Control) (_data : Option PyBody)
    (seed : Nat) (_now : ℚ) : RState × Control × Except PyErr Nat :=
  let c := if alistContains ctrl "request-id" then ctrl
           else alistSet ctrl "request-id" (uuidHex seed)
  let rid := (alistGet c "request-id").getD ""
  match delivAddRequest s.deliv rid with
  | (d, Except.error e) => ({ s with deliv := d }, c, Except.error e)
  | (d, Except.ok _) =>
    ({ s with deliv := d }, c,
     Except.error (PyErr.attributeError "collections.deque" "lock"))

/-- `GreelletResilientClient._pollster_callback` (lines 114-154). `recv`
is the result of `_receive_message` (lines 169-178): the parsed ack dict,
or `none` when the socket would have blocked (zmq.EAGAIN, logged as a
warning on line 176).  With a message in hand, line 122
`self._send_queue.lock.acquire()` raises `AttributeError` (deque has no
attribute `lock`); lines 123-154 are never reached.  Even past that
raise: with an empty Pending Slot line 125 formats `message.control` on
the received dict (`AttributeError`), after construction the Pending Slot
holds the bare handshake dict so line 128 `self._pending_message.control`
also raises, and on a successful dequeue line 151 assigns the *received
ack* (not the transmitted envelope) to the Pending Slot. -/
def rPollsterCallback (s : RState) (recv : Option Control) (_now : ℚ) :
    RState × Except PyErr Unit :=
  match recv with
  | Option.none =>
    ({ s with log := s.log ++ ["socket would have blocked"] }, Except.ok ())
  | Option.some _ =>
    (s, Except.error (PyErr.attributeError "collections.deque" "lock"))

/-- `GreelletResilientClient.run` (lines 180-223), the housekeeping task.
Halt set: log and return an empty schedule (lines 184-186).  Status
`connected`: line 189 `self._send_queue.lock.acquire()` raises
`AttributeError` before the timeout check on lines 190-203 can run.
Status `disconnected`: after the retry interval, `_send_handshake()`
(line 208) which raises; otherwise fall through to line 223 and
self-reschedule.  Status `handshaking`: line 210 raises like line 189.
The returned list holds the absolute times of the requested next runs. -/
def rRun (s : RState) (haltEvent : Bool) (now : ℚ) (seed : Nat) :
    RState × Except PyErr (List ℚ) :=
  if haltEvent then
    ({ s with log := s.log ++ ["halt event is set"] }, Except.ok [])
  else
    match s.status with
    | RStatus.connected =>
      (s, Except.error (PyErr.attributeError "collections.deque" "lock"))
    | RStatus.disconnected =>
      if now - s.statusTime > handshakeRetryInterval then
        match rSendHandshake s seed now with
        | (s2, Except.error e) => (s2, Except.error e)
        | (s2, Except.ok _) => (s2, Except.ok [now + pollingInterval])
      else (s, Except.ok [now + pollingInterval])
    | RStatus.handshaking =>
      (s, Except.error (PyErr.attributeError "collections.deque" "lock"))

/-- The application (non-handshake) envelopes of a wire trace. -/
def sentApp (l : List (Control × List String)) : List (Control × List String) :=
  l.filter (fun w =>
    !(alistGet w.1 "message-type" == Option.some "resilient-server-handshake"))

/-- The Pending Slot invariant of spec section 3: the slot (at most one
envelope, structurally, as an `Option`) is non-empty only while status is
handshaking or connected; equivalently it is empty whenever the status is
disconnected. -/
def rInv (s : RState) : Prop :=
  s.status = RStatus.disconnected → s.pending = none

/-! ### Concrete fixture states -/

/-- A resilient client state at rest: disconnected, empty queue and
Pending Slot (field-wise the state the constructor builds on lines 50-60,
before the raising `_send_handshake` call). -/
def rsDisconnected : RState :=
  { clientTag := "tag", clientAddress := "addr", sendQueue := [],
    pending := none, pendingStart := none, status := RStatus.disconnected,
    statusTime := 0, deliv := { entries := [], nextChannel := 0 },
    sent := [], log := [] }

/-- The envelope occupying the Pending Slot in the timeout fixture. -/
def pendingMsg : Message :=
  { control := [("message-type", "put"), ("request-id", "rid-1")], body := none }

/-- An envelope waiting in the Send Queue in the timeout fixture. -/
def queuedMsg : Message :=
  { control := [("message-type", "put"), ("request-id", "rid-2")], body := none }

/-- A connected resilient client whose Pending Slot envelope was sent at
time 0, with one queued envelope behind it. -/
def rsConnectedAged : RState :=
  { rsDisconnected with
    status := RStatus.connected
    pending := some (PendVal.msg pendingMsg)
    pendingStart := some 0
    sendQueue := [queuedMsg] }

/-- The handshake control map of the handshaking fixture. -/
def hsCtl : Control := handshakeControl "tag" "addr" 0

/-- A handshaking resilient client: the Pending Slot holds the bare
handshake control dict, exactly as line 108 leaves it. -/
def rsHandshaking : RState :=
  { rsDisconnected with
    status := RStatus.handshaking
    pending := some (PendVal.ctl hsCtl)
    pendingStart := some 0 }

/-- A connected resilient client with an empty Pending Slot. -/
def rsConnectedEmpty : RState :=
  { rsDisconnected with status := RStatus.connected }

/-- An XREQ client with one registered request: `queue_message_for_send`
has been called once with request-id `r1`, so the registry maps `r1` to
delivery queue 0. -/
def xRegistered : XState :=
  (xQueueMessageForSend xInit [("request-id", "r1")] Option.none 0).1

/-! ### Claim theorems -/

/-- Claim C1 (evaluation at the failing input): queueing an application
envelope on a disconnected resilient client raises `AttributeError`
(`self._send_queue.lock` on line 85; and even past that, line 92 calls
`put` on a deque, which has no such method), so the envelope never enters
the Send Queue, nothing is ever transmitted, and only the orphaned
Delivery Correlator registration from line 81 persists — the claimed
queued-order transmission and resolution can never happen. -/
theorem c1_queueing_raises_and_never_enqueues :
    (rQueueMessageForSend rsDisconnected [("message-type", "put")] Option.none 3 0).2.2
      = Except.error (PyErr.attributeError "collections.deque" "lock")
    ∧ (rQueueMessageForSend rsDisconnected [("message-type", "put")] Option.none 3 0).1.sendQueue = []
    ∧ (rQueueMessageForSend rsDisconnected [("message-type", "put")] Option.none 3 0).1.sent = []
    ∧ (rQueueMessageForSend rsDisconnected [("message-type", "put")] Option.none 3 0).1.deliv.entries
      = [(uuidHex 3, 0)] := by
  decide

/-- Claim C2 (evaluation at the failing input): a connected resilient
client whose Pending Slot envelope is 11 seconds old (beyond the
10-second `ackTimeout`) is left completely unchanged by one housekeeping
run, which raises `AttributeError` at line 189 (`self._send_queue.lock`)
instead of disconnecting and requeueing the pending envelope at the head
of the Send Queue. -/
theorem c2_timeout_housekeeping_raises :
    (11 : ℚ) - 0 > ackTimeout
    ∧ rRun rsConnectedAged false 11 0
      = (rsConnectedAged, Except.error (PyErr.attributeError "collections.deque" "lock"))
    ∧ (rRun rsConnectedAged false 11 0).1.status = RStatus.connected
    ∧ (rRun rsConnectedAged false 11 0).1.pending = some (PendVal.msg pendingMsg)
    ∧ (rRun rsConnectedAged false 11 0).1.sendQueue = [queuedMsg] := by
  refine ⟨by norm_num [ackTimeout], by decide⟩

/-- Claim C3 (evaluation at the failing input): a handshaking resilient
client receiving the ack whose request-id matches the pending handshake
gets `AttributeError` from line 122 (`self._send_queue.lock`) and stays
in `handshaking` with the Pending Slot still occupied; it never becomes
connected and never dequeues the Send Queue.  (Past that raise two more
slips keep the claim false: line 128 reads `.control` on the Pending
Slot, which after construction holds the bare handshake dict from line
108, and line 151 assigns the received ack — not the dequeued,
transmitted envelope — to the Pending Slot.) -/
theorem c3_handshake_ack_raises :
    alistGet hsCtl "request-id" = some (uuidHex 0)
    ∧ rPollsterCallback rsHandshaking (some [("request-id", uuidHex 0)]) 1
      = (rsHandshaking, Except.error (PyErr.attributeError "collections.deque" "lock"))
    ∧ (rPollsterCallback rsHandshaking (some [("request-id", uuidHex 0)]) 1).1.status
      = RStatus.handshaking
    ∧ (rPollsterCallback rsHandshaking (some [("request-id", uuidHex 0)]) 1).1.pending
      = some (PendVal.ctl hsCtl) := by
  decide

/-- Claim C7 (evaluation at the failing input): a would-block receive is
indeed absorbed (logged, state otherwise unchanged, no exception), but a
message received while the Pending Slot is empty raises `AttributeError`
at line 122 (`self._send_queue.lock`) instead of being logged and
discarded — and even past that raise, the logging line 125 itself
formats `message.control` on the received dict, which also raises
`AttributeError`. -/
theorem c7_unexpected_reply_raises :
    rsConnectedEmpty.pending = none
    ∧ rPollsterCallback rsConnectedEmpty Option.none 0
      = ({ rsConnectedEmpty with log := ["socket would have blocked"] }, Except.ok ())
    ∧ rPollsterCallback rsConnectedEmpty (some [("request-id", "zzz")]) 0
      = (rsConnectedEmpty, Except.error (PyErr.attributeError "collections.deque" "lock")) := by
  decide

/-- Claim C5: the encode/decode asymmetry of the message codec.  Encoding
a scalar body wraps it into one trailing frame; decoding unwraps zero
trailing frames to `None`, one to the bare segment, and keeps two or more
as an ordered list; hence decode after encode returns the control map
unchanged, `None` for an absent body, the bare segment for a scalar or
one-element body, and an equal list for a multi-segment body. -/
theorem c5_codec_wrap_unwrap_asymmetry (c : Control) (s x : String)
    (l : List String) (hl : 1 < l.length) :
    (xEncodeMessage { control := c, body := Option.none } = Except.ok (c, [])
      ∧ xDecodeFrames (c, []) = (c, RecvBody.none))
    ∧ (xEncodeMessage { control := c, body := some (PyBody.scalar s) } = Except.ok (c, [s])
      ∧ xDecodeFrames (c, [s]) = (c, RecvBody.single s))
    ∧ (xEncodeMessage { control := c, body := some (PyBody.seq [x]) } = Except.ok (c, [x])
      ∧ xDecodeFrames (c, [x]) = (c, RecvBody.single x))
    ∧ (xEncodeMessage { control := c, body := some (PyBody.seq l) } = Except.ok (c, l)
      ∧ xDecodeFrames (c, l) = (c, RecvBody.multi l)) := by
  refine ⟨⟨rfl, rfl⟩, ⟨rfl, rfl⟩, ⟨rfl, rfl⟩, ?_⟩
  match l, hl with
  | a :: b :: rest, _ => exact ⟨rfl, rfl⟩

/-- Witness for C5 at a concrete two-segment body. -/
theorem c5_codec_wrap_unwrap_asymmetry_witness :
    1 < (["seg1", "seg2"] : List String).length
    ∧ (xEncodeMessage { control := [("k", "v")], body := some (PyBody.seq ["seg1", "seg2"]) }
        = Except.ok ([("k", "v")], ["seg1", "seg2"])
      ∧ xDecodeFrames ([("k", "v")], ["seg1", "seg2"])
        = ([("k", "v")], RecvBody.multi ["seg1", "seg2"])) :=
  ⟨by decide,
   (c5_codec_wrap_unwrap_asymmetry [("k", "v")] "a" "b" ["seg1", "seg2"] (by decide)).2.2.2⟩

/-- Helper for C4: the resolve step of the XREQ callback on a registered
request-id pops the registry entry and appends the reply to its delivery
queue. -/
theorem xResolve_step_registered (s : XState) (c : Control) (b : RecvBody)
    (rid : String) (ch : Nat)
    (hrid : alistGet c "request-id" = some rid)
    (hreg : alistGet s.deliveryQueues rid = some ch) :
    xPollsterCallback s false true (some (c, b)) =
      ({ s with
          deliveryQueues := alistRemove s.deliveryQueues rid,
          channels := s.channels.set ch (s.channels.getD ch [] ++ [(c, b)]) },
       Except.ok ()) := by
  simp [xPollsterCallback, xHandleReceived, hrid, hreg]

/-- Helper for C4: the resolve step on an unregistered request-id only logs
the correlation miss. -/
theorem xResolve_step_miss (s : XState) (c : Control) (b : RecvBody)
    (rid : String)
    (hrid : alistGet c "request-id" = some rid)
    (hmiss : alistGet s.deliveryQueues rid = none) :
    xPollsterCallback s false true (some (c, b)) =
      ({ s with log := s.log ++ ["No delivery queue"] }, Except.ok ()) := by
  simp [xPollsterCallback, xHandleReceived, hrid, hmiss]

/-- Claim C4: resolving a reply for a registered request-id removes the
registry entry and pushes `(control, body)` into that delivery queue
exactly once, raising nothing; a second resolve with the same id finds no
entry, logs the correlation miss, discards the reply, fulfills no channel
and raises nothing. -/
theorem c4_correlator_exactly_once (s : XState) (c : Control) (b : RecvBody)
    (rid : String) (ch : Nat)
    (hnodup : (s.deliveryQueues.map Prod.fst).Nodup)
    (hrid : alistGet c "request-id" = some rid)
    (hreg : alistGet s.deliveryQueues rid = some ch)
    (hch : ch < s.channels.length) :
    (xPollsterCallback s false true (some (c, b))).2 = Except.ok ()
    ∧ alistGet (xPollsterCallback s false true (some (c, b))).1.deliveryQueues rid = none
    ∧ (xPollsterCallback s false true (some (c, b))).1.channels.getD ch []
      = s.channels.getD ch [] ++ [(c, b)]
    ∧ (∀ j, j ≠ ch → (xPollsterCallback s false true (some (c, b))).1.channels.getD j []
      = s.channels.getD j [])
    ∧ (xPollsterCallback (xPollsterCallback s false true (some (c, b))).1
        false true (some (c, b))).2 = Except.ok ()
    ∧ (xPollsterCallback (xPollsterCallback s false true (some (c, b))).1
        false true (some (c, b))).1.channels
      = (xPollsterCallback s false true (some (c, b))).1.channels
    ∧ (xPollsterCallback (xPollsterCallback s false true (some (c, b))).1
        false true (some (c, b))).1.deliveryQueues
      = (xPollsterCallback s false true (some (c, b))).1.deliveryQueues
    ∧ (xPollsterCallback (xPollsterCallback s false true (some (c, b))).1
        false true (some (c, b))).1.log
      = (xPollsterCallback s false true (some (c, b))).1.log ++ ["No delivery queue"] := by
  have hafter : alistGet (alistRemove s.deliveryQueues rid) rid = none :=
    alistGet_remove_self s.deliveryQueues rid hnodup
  have e1 := xResolve_step_registered s c b rid ch hrid hreg
  rw [e1]
  have e2 := xResolve_step_miss
    { s with
        deliveryQueues := alistRemove s.deliveryQueues rid,
        channels := s.channels.set ch (s.channels.getD ch [] ++ [(c, b)]) }
    c b rid hrid hafter
  rw [e2]
  refine ⟨rfl, hafter, ?_, ?_, rfl, rfl, rfl, rfl⟩
  · exact getD_set_self s.channels ch _ _ hch
  · intro j hj
    exact getD_set_ne s.channels ch j _ _ hj

/-- Witness for C4 on a client with one registered request. -/
theorem c4_correlator_exactly_once_witness :
    (xRegistered.deliveryQueues.map Prod.fst).Nodup
    ∧ alistGet xRegistered.deliveryQueues "r1" = some 0
    ∧ (xPollsterCallback xRegistered false true
        (some ([("request-id", "r1")], RecvBody.none))).2 = Except.ok ()
    ∧ alistGet (xPollsterCallback xRegistered false true
        (some ([("request-id", "r1")], RecvBody.none))).1.deliveryQueues "r1" = none :=
  ⟨by decide, by decide,
   (c4_correlator_exactly_once xRegistered [("request-id", "r1")] RecvBody.none "r1" 0
     (by decide) (by decide) (by decide) (by decide)).1,
   (c4_correlator_exactly_once xRegistered [("request-id", "r1")] RecvBody.none "r1" 0
     (by decide) (by decide) (by decide) (by decide)).2.1⟩

/-- Claim C6 counterexample: registering the already-registered request-id
`r1` a second time does not fail — `queue_message_for_send` returns a
fresh delivery queue (index 1) normally and the registry entry for `r1`
is silently overwritten from queue 0 to queue 1. -/
theorem c6_counterexample_silent_overwrite :
    alistGet xRegistered.deliveryQueues "r1" = some 0
    ∧ (xQueueMessageForSend xRegistered [("request-id", "r1")] Option.none 1).2.2 = 1
    ∧ alistGet (xQueueMessageForSend xRegistered
        [("request-id", "r1")] Option.none 1).1.deliveryQueues "r1" = some 1 := by
  decide

/-- Claim C6 as amended: registering an already-registered request-id does
not fail with `DuplicateRequestId`; the plain dict assignment on lines
54-55 silently overwrites the registry entry with a fresh delivery queue
(the next channel index), so the earlier caller's channel is replaced. -/
theorem c6_amended_registration_overwrites (s : XState) (ctrl : Control)
    (d : Option PyBody) (seed : Nat) (rid : String) (ch : Nat)
    (hrid : alistGet ctrl "request-id" = some rid)
    (hreg : alistGet s.deliveryQueues rid = some ch)
    (hch : ch < s.channels.length) :
    (xQueueMessageForSend s ctrl d seed).2.2 = s.channels.length
    ∧ alistGet (xQueueMessageForSend s ctrl d seed).1.deliveryQueues rid
      = some s.channels.length
    ∧ s.channels.length ≠ ch := by
  have hc : alistContains ctrl "request-id" = true := by
    simp [alistContains, hrid]
  refine ⟨?_, ?_, Nat.ne_of_gt hch⟩
  · simp [xQueueMessageForSend, hc]
  · simp [xQueueMessageForSend, hc, hrid, alistGet_set_self]

/-- Witness for the amended C6. -/
theorem c6_amended_registration_overwrites_witness :
    alistGet xRegistered.deliveryQueues "r1" = some 0
    ∧ ((xQueueMessageForSend xRegistered [("request-id", "r1")] Option.none 2).2.2
        = xRegistered.channels.length
      ∧ alistGet (xQueueMessageForSend xRegistered
          [("request-id", "r1")] Option.none 2).1.deliveryQueues "r1"
        = some xRegistered.channels.length
      ∧ xRegistered.channels.length ≠ 0) :=
  ⟨by decide,
   c6_amended_registration_overwrites xRegistered [("request-id", "r1")] Option.none 2 "r1" 0
     (by decide) (by decide) (by decide)⟩

/-- Claim C10: `queue_message_for_send` mutates the caller's control map
in place.  For the XREQ client (general statement): when the map lacks
`request-id`, a freshly generated 32-character hex id is appended to the
caller's map, all other entries unchanged, and the call returns normally.
For the resilient client (evaluation at the failing input): lines 77-78
insert the id into the caller's map the same way, but the call then
raises `AttributeError` at line 85 (`self._send_queue.lock`) instead of
returning, so the caller only sees the mutation if it catches the
exception. -/
theorem c10_request_id_inserted_in_place :
    (∀ (s : XState) (ctrl : Control) (d : Option PyBody) (seed : Nat),
       alistContains ctrl "request-id" = false →
       (xQueueMessageForSend s ctrl d seed).2.1 = ctrl ++ [("request-id", uuidHex seed)]
       ∧ (uuidHex seed).length = 32
       ∧ (uuidHex seed).toList.all isHexDigitChar = true)
    ∧ ((rQueueMessageForSend rsDisconnected [("message-type", "put")] Option.none 5 0).2.1
        = [("message-type", "put"), ("request-id", uuidHex 5)]
      ∧ (rQueueMessageForSend rsDisconnected [("message-type", "put")] Option.none 5 0).2.2
        = Except.error (PyErr.attributeError "collections.deque" "lock")) := by
  constructor
  · intro s ctrl d seed hc
    have hget : alistGet ctrl "request-id" = none := by
      cases hh : alistGet ctrl "request-id" with
      | none => rfl
      | some v => simp [alistContains, hh] at hc
    refine ⟨?_, uuidHex_length seed, uuidHex_all_hex seed⟩
    simp [xQueueMessageForSend, hc,
      alistSet_of_not_contains ctrl "request-id" (uuidHex seed) hget]
  · exact ⟨by decide, by decide⟩

/-- Witness for the XREQ half of C10. -/
theorem c10_request_id_inserted_in_place_witness :
    alistContains [("message-type", "get")] "request-id" = false
    ∧ (xQueueMessageForSend xInit [("message-type", "get")] Option.none 7).2.1
      = [("message-type", "get")] ++ [("request-id", uuidHex 7)] :=
  ⟨by decide,
   (c10_request_id_inserted_in_place.1 xInit [("message-type", "get")] Option.none 7
     (by decide)).1⟩

/-- Helper: one housekeeping run never changes the wire trace, the
Pending Slot or the status (each branch either returns the state
unchanged, appends to the log, or raises before mutating). -/
theorem rRun_preserves (s : RState) (hb : Bool) (now : ℚ) (seed : Nat) :
    (rRun s hb now seed).1.sent = s.sent
    ∧ (rRun s hb now seed).1.pending = s.pending
    ∧ (rRun s hb now seed).1.status = s.status := by
  unfold rRun rSendHandshake
  split
  · exact ⟨rfl, rfl, rfl⟩
  · split
    · exact ⟨rfl, rfl, rfl⟩
    · split
      · exact ⟨rfl, rfl, rfl⟩
      · exact ⟨rfl, rfl, rfl⟩
    · exact ⟨rfl, rfl, rfl⟩

/-- Claim C8: handshake gating.  No application envelope is transmitted
before the client's status is `connected`: from any state that is not
connected, `queue_message_for_send` leaves the wire trace unchanged, the
socket callback leaves the application part of the wire trace unchanged,
and the housekeeping task never adds an application envelope to the wire
trace from any state.  (In this code the properties hold degenerately:
every transmit path raises `AttributeError` at its `self._send_queue.lock`
line before reaching `_send_message`, so nothing is ever transmitted at
all and `connected` is unreachable.) -/
theorem c8_handshake_gating :
    (∀ (s : RState) (ctrl : Control) (d : Option PyBody) (seed : Nat) (now : ℚ),
       s.status ≠ RStatus.connected →
       (rQueueMessageForSend s ctrl d seed now).1.sent = s.sent)
    ∧ (∀ (s : RState) (recv : Option Control) (now : ℚ),
       s.status ≠ RStatus.connected →
       sentApp (rPollsterCallback s recv now).1.sent = sentApp s.sent)
    ∧ (∀ (s : RState) (hb : Bool) (now : ℚ) (seed : Nat),
       sentApp (rRun s hb now seed).1.sent = sentApp s.sent) := by
  refine ⟨?_, ?_, ?_⟩
  · intro s ctrl d seed now _
    dsimp only [rQueueMessageForSend]
    split <;> rfl
  · intro s recv now _
    cases recv <;> rfl
  · intro s hb now seed
    rw [(rRun_preserves s hb now seed).1]

/-- Witness for C8 from the disconnected fixture. -/
theorem c8_handshake_gating_witness :
    rsDisconnected.status ≠ RStatus.connected
    ∧ (rQueueMessageForSend rsDisconnected [("message-type", "put")] Option.none 9 0).1.sent
      = rsDisconnected.sent
    ∧ sentApp (rPollsterCallback rsDisconnected (some [("request-id", "q")]) 0).1.sent
      = sentApp rsDisconnected.sent
    ∧ sentApp (rRun rsDisconnected false 0 0).1.sent = sentApp rsDisconnected.sent :=
  ⟨by decide,
   c8_handshake_gating.1 rsDisconnected [("message-type", "put")] Option.none 9 0 (by decide),
   c8_handshake_gating.2.1 rsDisconnected (some [("request-id", "q")]) 0 (by decide),
   c8_handshake_gating.2.2 rsDisconnected false 0 0⟩

/-- Claim C9: the Pending Slot holds at most one envelope (structurally:
it is an `Option PendVal`) and is non-empty only while the status is
handshaking or connected, i.e. it is empty whenever the status is
disconnected (`rInv`); construction establishes the invariant and every
operation preserves it.  (Preservation is immediate in this code: each
operation either leaves the slot and status untouched or raises at its
`self._send_queue.lock` line before mutating them.) -/
theorem c9_pending_slot_invariant :
    (∀ (tag addr : String) (now : ℚ) (seed : Nat), rInv (rInit tag addr now seed).1)
    ∧ (∀ (s : RState) (ctrl : Control) (d : Option PyBody) (seed : Nat) (now : ℚ),
        rInv s → rInv (rQueueMessageForSend s ctrl d seed now).1)
    ∧ (∀ (s : RState) (recv : Option Control) (now : ℚ),
        rInv s → rInv (rPollsterCallback s recv now).1)
    ∧ (∀ (s : RState) (hb : Bool) (now : ℚ) (seed : Nat),
        rInv s → rInv (rRun s hb now seed).1) := by
  refine ⟨?_, ?_, ?_, ?_⟩
  · intro tag addr now seed _h
    rfl
  · intro s ctrl d seed now hinv
    dsimp only [rQueueMessageForSend]
    split <;> exact hinv
  · intro s recv now hinv
    cases recv <;> exact hinv
  · intro s hb now seed hinv
    intro hdisc
    rw [(rRun_preserves s hb now seed).2.2] at hdisc
    rw [(rRun_preserves s hb now seed).2.1]
    exact hinv hdisc

/-- Witness for C9 from the disconnected fixture. -/
theorem c9_pending_slot_invariant_witness :
    rInv rsDisconnected
    ∧ rInv (rInit "t" "a" 0 0).1
    ∧ rInv (rQueueMessageForSend rsDisconnected [("message-type", "put")] Option.none 11 0).1
    ∧ rInv (rRun rsDisconnected false 0 0).1 :=
  ⟨fun _ => rfl,
   c9_pending_slot_invariant.1 "t" "a" 0 0,
   c9_pending_slot_invariant.2.1 rsDisconnected [("message-type", "put")] Option.none 11 0
     (fun _ => rfl),
   c9_pending_slot_invariant.2.2.2 rsDisconnected false 0 0 (fun _ => rfl)⟩
